import Mathlib

/-!
Shallow embedding of the Brick Deal Hunter Cloud Functions module
(`functions/src/index.ts`): price generation, deal derivation,
subscriber matching, push fanout, registration endpoints, API-key
validation and the per-IP rate limiter.  JavaScript numbers are
modelled as rationals (`ℚ`); `Math.round` as floor of `x + 1/2`,
which is JS round-half-up semantics.  Stateful pieces (the Firestore
collections, the in-memory rate-limit map) are passed explicitly.
-/

namespace BrickDealHunter

/-- JS `Math.round`: round half toward positive infinity. -/
def jsRound (x : ℚ) : ℤ := ⌊x + 1/2⌋

/-- `Math.round(x * 100) / 100`, the round-to-cents idiom used for
`currentPrice` and `savings` in the source. -/
def roundToCents (x : ℚ) : ℚ := ((jsRound (x * 100) : ℤ) : ℚ) / 100

/-- JS `Math.floor`. -/
def jsFloor (x : ℚ) : ℤ := ⌊x⌋

-- ============================================
-- Validation helpers (index.ts lines 124-160)
-- ============================================

/-- Characters admitted inside the bracket of an Expo push token by the
source regex `[a-zA-Z0-9_-]`. -/
def isTokenBodyChar (c : Char) : Bool :=
  c.isAlpha || c.isDigit || c == '_' || c == '-'

/-- `isValidExpoPushToken`: the source tests
`/^ExponentPushToken\[[a-zA-Z0-9_-]+\]$/`.  The char-list reading:
the string is `"ExponentPushToken["`, a nonempty run of body
characters, then `"]"`. -/
def isValidExpoPushToken (t : String) : Bool :=
  let cs := t.toList
  let rest := cs.drop 18
  decide (cs.take 18 = "ExponentPushToken[".toList) &&
    !rest.dropLast.isEmpty &&
    rest.dropLast.all isTokenBodyChar &&
    decide (rest.getLast? = some ']')

/-- `isValidSetNumber`: the source tests `/^\d{4,6}(-\d)?$/` — four to
six digits with an optional dash-digit suffix.  The source also
rejects empty or non-string input first; the empty string already
fails the digit-count check. -/
def isValidSetNumber (s : String) : Bool :=
  let cs := s.toList
  let ds := cs.takeWhile Char.isDigit
  let rest := cs.drop ds.length
  (decide (4 ≤ ds.length) && decide (ds.length ≤ 6)) &&
    (match rest with
     | [] => true
     | ['-', d] => d.isDigit
     | _ => false)

/-- `sanitizeSetNumber`: for valid set numbers the source strips the
optional `-digit` suffix and every non-digit; on a valid input that is
exactly its leading digit run.  Invalid input yields `""`. -/
def sanitizeSetNumber (s : String) : String :=
  if isValidSetNumber s then String.mk (s.toList.takeWhile Char.isDigit) else ""

-- ============================================
-- Data model (index.ts lines 166-217)
-- ============================================

/-- `LegoSet` catalog record (fields the pipeline reads; the
`lastUpdated` timestamp is managed by the store and omitted). -/
structure LegoSet where
  setNumber : String
  name : String
  price : ℚ
  imageUrl : String
  url : String
  theme : Option String
  pieces : Option ℚ
  year : Option ℚ
  availability : String
deriving Repr, DecidableEq

/-- `PriceData`: one retailer's price/stock snapshot for one set. -/
structure PriceData where
  setNumber : String
  setName : String
  retailer : String
  currentPrice : ℚ
  originalPrice : ℚ
  url : String
  inStock : Bool
  theme : Option String
  imageUrl : Option String
  pieces : Option ℚ
deriving Repr, DecidableEq

/-- `DealData`: a `PriceData` augmented with the derived
`percentOff` and `savings` fields. -/
structure DealData extends PriceData where
  percentOff : ℤ
  savings : ℚ
deriving Repr, DecidableEq

/-- `PushToken`: a subscriber registration record (timestamp omitted). -/
structure PushToken where
  token : String
  platform : String
  notificationsEnabled : Bool
  minDiscountThreshold : ℚ
  watchedThemes : List String
  watchedSets : List String
deriving Repr, DecidableEq

-- ============================================
-- Deal derivation (updatePrices body, index.ts lines 669-686)
-- ============================================

/-- The percent-off computation of `updatePrices`:
`Math.round(((originalPrice - currentPrice) / originalPrice) * 100)`. -/
def percentOffCalc (p : PriceData) : ℤ :=
  jsRound ((p.originalPrice - p.currentPrice) / p.originalPrice * 100)

/-- Deal derivation as performed inline in `updatePrices` (and
identically in `manualPriceUpdate`): a deal record is built and
persisted exactly when `percentOff >= 10 && priceData.inStock`;
`savings` is `Math.round((originalPrice - currentPrice) * 100) / 100`. -/
def deriveDeal (p : PriceData) : Option DealData :=
  if 10 ≤ percentOffCalc p ∧ p.inStock then
    some { toPriceData := p
           percentOff := percentOffCalc p
           savings := roundToCents (p.originalPrice - p.currentPrice) }
  else
    none

end BrickDealHunter

namespace BrickDealHunter

/-- A concrete in-stock observation at baseline 100, current 95. -/
def obs95 : PriceData :=
  { setNumber := "75192-1", setName := "Millennium Falcon", retailer := "amazon"
    currentPrice := 95, originalPrice := 100, url := "", inStock := true
    theme := some "Star Wars", imageUrl := none, pieces := none }

/-- A concrete in-stock observation at baseline 100, current 80. -/
def obs80 : PriceData :=
  { obs95 with currentPrice := 80 }

-- ============================================
-- Subscriber matching and push fanout (index.ts lines 510-608)
-- ============================================

/-- JS truthiness of the optional `deal.theme` field: `undefined` and
the empty string are falsy, every other string is truthy. -/
def themeTruthy : Option String → Bool
  | none => false
  | some s => !(s == "")

/-- The in-loop eligibility filter of `getEligiblePushTokens`:
`watchingTheme` is `watchedThemes.includes(deal.theme)` when
`deal.theme` is truthy and the theme list is nonempty, else `true`;
`watchingSet` is `watchedSets.includes(deal.setNumber)` when the set
list is nonempty, else `true`; the subscriber matches when
`watchingTheme || watchingSet`. -/
def matchesPreferences (deal : DealData) (sub : PushToken) : Bool :=
  let watchingTheme :=
    if themeTruthy deal.theme && decide (0 < sub.watchedThemes.length) then
      sub.watchedThemes.contains (deal.theme.getD "")
    else true
  let watchingSet :=
    if 0 < sub.watchedSets.length then
      sub.watchedSets.contains deal.setNumber
    else true
  watchingTheme || watchingSet

/-- `getEligiblePushTokens`: the Firestore query keeps registrations
with `notificationsEnabled == true` and
`minDiscountThreshold <= deal.percentOff`; the loop then keeps those
passing `matchesPreferences` and collects their token strings. -/
def getEligiblePushTokens (deal : DealData) (regs : List PushToken) : List String :=
  ((regs.filter
      (fun t => t.notificationsEnabled && decide (t.minDiscountThreshold ≤ (deal.percentOff : ℚ)))).filter
    (fun t => matchesPreferences deal t)).map (fun t => t.token)

/-- The `data` object attached to a push message. -/
structure PushData where
  type : String
  setNumber : String
  retailer : String
  percentOff : ℤ
deriving Repr, DecidableEq

/-- `NotificationPayload` (title, body, data). -/
structure NotificationPayload where
  title : String
  body : String
  data : PushData
deriving Repr, DecidableEq

/-- One message posted to the Expo push gateway; `recipient` models
the JS `to` field (a reserved word in Lean). -/
structure PushMessage where
  recipient : String
  sound : String
  title : String
  body : String
  data : PushData
  badge : ℕ
  priority : String
deriving Repr, DecidableEq

/-- The message `sendExpoPushNotification` builds for one token. -/
def mkPushMessage (n : NotificationPayload) (token : String) : PushMessage :=
  { recipient := token, sound := "default", title := n.title, body := n.body
    data := n.data, badge := 1, priority := "high" }

/-- Split a list into consecutive chunks of at most 100 elements, the
batching loop of `sendExpoPushNotification` (`batchSize = 100`). -/
def chunk100 {α : Type} : List α → List (List α)
  | [] => []
  | x :: xs => ((x :: xs).take 100) :: chunk100 ((x :: xs).drop 100)
termination_by l => l.length
decreasing_by
  simp only [List.length_drop, List.length_cons]
  omega

/-- `sendExpoPushNotification`: returns without any gateway call when
the token list is empty, otherwise posts the per-token messages in
batches of at most 100. -/
def sendExpoBatches (tokens : List String) (n : NotificationPayload) :
    List (List PushMessage) :=
  if tokens.isEmpty then [] else chunk100 (tokens.map (mkPushMessage n))

/-- Observable effects of `notifyHotDeal`: one subscriber-registry
query, and one gateway POST per batch. -/
inductive FanoutEffect : Type where
  | queryRegistry : FanoutEffect
  | pushBatch : List PushMessage → FanoutEffect
deriving Repr, DecidableEq

/-- The notification payload `notifyHotDeal` builds. -/
def hotDealPayload (deal : DealData) : NotificationPayload :=
  { title := toString deal.percentOff ++ "% OFF - Hot Deal!"
    body := deal.setName ++ " at " ++ deal.retailer.toUpper ++ " - Now $"
      ++ toString deal.currentPrice ++ " (Save $" ++ toString deal.savings ++ ")"
    data := { type := "deal", setNumber := deal.setNumber
              retailer := deal.retailer, percentOff := deal.percentOff } }

/-- `notifyHotDeal` as its trace of effects: returns immediately when
`deal.percentOff < 40`; otherwise queries the registry and, when at
least one token is eligible, dispatches the batched messages. -/
def notifyHotDeal (deal : DealData) (regs : List PushToken) : List FanoutEffect :=
  if deal.percentOff < 40 then []
  else
    FanoutEffect.queryRegistry ::
      (sendExpoBatches (getEligiblePushTokens deal regs) (hotDealPayload deal)).map
        FanoutEffect.pushBatch

-- Concrete subscribers and deals used in witnesses and examples.

/-- A subscriber watching only the "Star Wars" theme, with no watched
sets, threshold 0, notifications enabled. -/
def swSubscriber : PushToken :=
  { token := "ExponentPushToken[swfan01]", platform := "ios"
    notificationsEnabled := true, minDiscountThreshold := 0
    watchedThemes := ["Star Wars"], watchedSets := [] }

/-- A subscriber with both watch lists empty. -/
def openSubscriber : PushToken :=
  { token := "ExponentPushToken[alldeals]", platform := "android"
    notificationsEnabled := true, minDiscountThreshold := 0
    watchedThemes := [], watchedSets := [] }

/-- A 50%-off deal in theme "City". -/
def cityDeal : DealData :=
  { setNumber := "60380-1", setName := "City Centre", retailer := "walmart"
    currentPrice := 50, originalPrice := 100, url := "", inStock := true
    theme := some "City", imageUrl := none, pieces := none
    percentOff := 50, savings := 50 }

/-- A 45%-off deal in theme "Star Wars". -/
def swDeal : DealData :=
  { setNumber := "75192-1", setName := "Millennium Falcon", retailer := "amazon"
    currentPrice := 55, originalPrice := 100, url := "", inStock := true
    theme := some "Star Wars", imageUrl := none, pieces := none
    percentOff := 45, savings := 45 }

/-- A 40%-off deal in theme "Icons". -/
def hotDeal40 : DealData :=
  { setNumber := "10294-1", setName := "Titanic", retailer := "target"
    currentPrice := 60, originalPrice := 100, url := "", inStock := true
    theme := some "Icons", imageUrl := none, pieces := none
    percentOff := 40, savings := 40 }

/-- The same deal at 39% off. -/
def mildDeal39 : DealData :=
  { hotDeal40 with percentOff := 39, savings := 39 }

end BrickDealHunter

namespace BrickDealHunter

-- ============================================
-- Rate limiting (index.ts lines 47-89)
-- ============================================

/-- One entry of the in-memory `rateLimitMap`. -/
structure RateRecord where
  count : ℕ
  resetTime : ℤ
deriving Repr, DecidableEq

/-- The in-memory per-IP map, keyed by client IP string. -/
def RateMap : Type := String → Option RateRecord

/-- `RATE_LIMIT_WINDOW_MS = 60000`. -/
def rateLimitWindowMs : ℤ := 60000

/-- `RATE_LIMIT_MAX_REQUESTS = 30`. -/
def rateLimitMaxRequests : ℕ := 30

/-- The empty `rateLimitMap` at process start. -/
def emptyRateMap : RateMap := fun _ => none

/-- Map update used by `rateLimitMap.set(ip, ...)`. -/
def setRate (m : RateMap) (ip : String) (r : RateRecord) : RateMap :=
  fun k => if k = ip then some r else m k

/-- `checkRateLimit(ip)` at time `now`: no record or expired record
resets to count 1 with `resetTime = now + 60000` and admits; a live
record at `count >= 30` rejects; otherwise the count is incremented
and the request admitted.  Returns the admit flag and the new map. -/
def checkRateLimit (ip : String) (now : ℤ) (m : RateMap) : Bool × RateMap :=
  match m ip with
  | none => (true, setRate m ip ⟨1, now + rateLimitWindowMs⟩)
  | some r =>
    if r.resetTime < now then
      (true, setRate m ip ⟨1, now + rateLimitWindowMs⟩)
    else if rateLimitMaxRequests ≤ r.count then
      (false, m)
    else
      (true, setRate m ip ⟨r.count + 1, r.resetTime⟩)

/-- Run the limiter over a request sequence `(ip, time)`, recording
each request's time and admit flag. -/
def runRateLimit : List (String × ℤ) → RateMap → List (ℤ × Bool)
  | [], _ => []
  | (ip, t) :: rest, m =>
    let r := checkRateLimit ip t m
    (t, r.1) :: runRateLimit rest r.2

/-- Number of admitted requests in a run. -/
def countAdmitted (l : List (ℤ × Bool)) : ℕ :=
  (l.filter (fun p => p.2)).length

/-- Number of admitted requests whose time lies in `[lo, hi)`. -/
def countAdmittedIn (lo hi : ℤ) (l : List (ℤ × Bool)) : ℕ :=
  (l.filter (fun p => p.2 && decide (lo ≤ p.1) && decide (p.1 < hi))).length

/-- A single-IP request burst: one request at t=0, 29 at t=59000 (all
inside the fixed window opened at t=0), then 30 at t=60001 (just past
the reset, opening a fresh window). -/
def burstTrace : List (String × ℤ) :=
  ("1.2.3.4", 0) ::
    (List.replicate 29 ("1.2.3.4", 59000) ++ List.replicate 30 ("1.2.3.4", 60001))

-- ============================================
-- API key validation (index.ts lines 56-69)
-- ============================================

/-- Request headers relevant to `validateApiKey`. -/
structure Headers where
  xApiKey : Option String
  authorization : Option String
deriving Repr, DecidableEq

/-- Remove the first occurrence of `pat` from a character list
(JS `String.prototype.replace` with a string pattern and empty
replacement). -/
def removeFirst (pat : List Char) : List Char → List Char
  | [] => []
  | c :: cs =>
    if pat.isPrefixOf (c :: cs) then (c :: cs).drop pat.length
    else c :: removeFirst pat cs

/-- `authorization?.replace("Bearer ", "")`. -/
def stripBearer (s : String) : String :=
  String.mk (removeFirst "Bearer ".toList s.toList)

/-- `req.headers["x-api-key"] || req.headers["authorization"]?.replace(...)`:
the first operand wins when present and truthy (nonempty), otherwise
the stripped bearer header (or nothing when both are absent). -/
def extractApiKey (h : Headers) : Option String :=
  match h.xApiKey with
  | some k => if k = "" then h.authorization.map stripBearer else some k
  | none => h.authorization.map stripBearer

/-- `validateApiKey`: allow-all when `APP_API_KEY` is the empty string
(unconfigured); otherwise the extracted key must equal the secret. -/
def validateApiKey (appApiKey : String) (h : Headers) : Bool :=
  if appApiKey = "" then true
  else extractApiKey h == some appApiKey

-- ============================================
-- Registration endpoints (index.ts lines 851-915, 1043-1100)
-- ============================================

/-- The `preferences` object of a register/update request; each field
is optional (absent models JS `undefined` or a wrongly-typed value,
which the source treats the same way). -/
structure Preferences where
  notificationsEnabled : Option Bool
  minDiscountThreshold : Option ℚ
  watchedThemes : Option (List String)
  watchedSets : Option (List String)
deriving Repr, DecidableEq

/-- The all-absent preferences object. -/
def defaultPreferences : Preferences := ⟨none, none, none, none⟩

/-- A `registerPushToken` request body plus HTTP method. -/
structure RegisterRequest where
  method : String
  token : String
  platform : String
  preferences : Option Preferences
deriving Repr, DecidableEq

/-- The `push_tokens` collection, keyed by token string. -/
def TokenStore : Type := String → Option PushToken

/-- The empty `push_tokens` collection. -/
def emptyStore : TokenStore := fun _ => none

/-- Store update: `db.collection("push_tokens").doc(token).set(tokenData,
{ merge: true })`.  `tokenData` assigns every field of the document, so
the merge-mode write still replaces the whole stored record. -/
def setStore (store : TokenStore) (key : String) (v : PushToken) : TokenStore :=
  fun k => if k = key then some v else store k

/-- JS `preferences?.field` chains: an absent `preferences` object
behaves like one with every field absent. -/
def prefOf (req : RegisterRequest) : Preferences :=
  req.preferences.getD defaultPreferences

/-- The `tokenData` record built by `registerPushToken`: platform
defaulted to "ios" unless in the allow-list, threshold clamped to
[0,100] (default 20), themes truncated to 50, sets filtered by
`isValidSetNumber` then truncated to 100, enabled defaulting to true. -/
def buildTokenData (token platform : String) (prefs : Preferences) : PushToken :=
  { token := token
    platform := if platform ∈ ["ios", "android", "web"] then platform else "ios"
    notificationsEnabled := prefs.notificationsEnabled.getD true
    minDiscountThreshold :=
      match prefs.minDiscountThreshold with
      | some x => min (max x 0) 100
      | none => 20
    watchedThemes := (prefs.watchedThemes.getD []).take 50
    watchedSets := ((prefs.watchedSets.getD []).filter isValidSetNumber).take 100 }

/-- The `registerPushToken` endpoint: OPTIONS preflight 204, non-POST
405, rate-limit rejection 429, invalid token 400 (nothing stored),
otherwise 200 and the built record upserted by token.  Returns
(status, new rate map, new store). -/
def registerPushToken (now : ℤ) (ip : String) (req : RegisterRequest)
    (rl : RateMap) (store : TokenStore) : ℕ × RateMap × TokenStore :=
  if req.method = "OPTIONS" then (204, rl, store)
  else if req.method ≠ "POST" then (405, rl, store)
  else
    let r := checkRateLimit ip now rl
    if !r.1 then (429, r.2, store)
    else if !isValidExpoPushToken req.token then (400, r.2, store)
    else
      (200, r.2, setStore store req.token
        (buildTokenData req.token req.platform (prefOf req)))

/-- A `sendTestNotification` request body plus method and headers. -/
structure TestRequest where
  method : String
  headers : Headers
  token : String
deriving Repr, DecidableEq

/-- The fixed payload of `sendTestNotification`. -/
def testPayload : NotificationPayload :=
  { title := "Test Notification"
    body := "Brick Deal Hunter notifications are working!"
    data := { type := "deal", setNumber := "TEST-1", retailer := "test", percentOff := 50 } }

/-- The `sendTestNotification` endpoint, translated exactly as written:
OPTIONS 204, non-POST 405, rate limit 429, invalid token 400,
unregistered token 404, otherwise 200 and a gateway dispatch to the
single token.  NOTE: despite the source's own doc comment "Requires
API key authentication", the handler never calls `validateApiKey`; no
401 path exists.  Returns (status, new rate map, gateway batches). -/
def sendTestNotification (now : ℤ) (ip : String) (req : TestRequest)
    (rl : RateMap) (store : TokenStore) : ℕ × RateMap × List (List PushMessage) :=
  if req.method = "OPTIONS" then (204, rl, [])
  else if req.method ≠ "POST" then (405, rl, [])
  else
    let r := checkRateLimit ip now rl
    if !r.1 then (429, r.2, [])
    else if !isValidExpoPushToken req.token then (400, r.2, [])
    else
      match store req.token with
      | none => (404, r.2, [])
      | some _ => (200, r.2, sendExpoBatches [req.token] testPayload)

-- ============================================
-- Price generation (index.ts lines 385-468)
-- ============================================

/-- `getRetailerUrl`: allowed retailers map to their search/product
URL built from the sanitized set number; anything else yields `""`. -/
def getRetailerUrl (retailer : String) (setNumber : String) : String :=
  let cleanSetNum := sanitizeSetNumber setNumber
  match retailer with
  | "lego" => "https://www.lego.com/en-us/product/" ++ cleanSetNum
  | "amazon" => "https://www.amazon.com/s?k=LEGO+" ++ cleanSetNum
  | "walmart" => "https://www.walmart.com/search?q=LEGO+" ++ cleanSetNum
  | "target" => "https://www.target.com/s?searchTerm=LEGO+" ++ cleanSetNum
  | "best_buy" => "https://www.bestbuy.com/site/searchpage.jsp?st=LEGO+" ++ cleanSetNum
  | "kohls" => "https://www.kohls.com/search.jsp?search=LEGO+" ++ cleanSetNum
  | "gamestop" => "https://www.gamestop.com/search/?q=LEGO+" ++ cleanSetNum
  | "shop_disney" => "https://www.shopdisney.com/search?q=LEGO+" ++ cleanSetNum
  | "macys" => "https://www.macys.com/shop/featured/lego+" ++ cleanSetNum
  | "barnes_noble" => "https://www.barnesandnoble.com/s/LEGO+" ++ cleanSetNum
  | "sams_club" => "https://www.samsclub.com/s/LEGO+" ++ cleanSetNum
  | "walgreens" => "https://www.walgreens.com/search/results.jsp?Ntt=LEGO+" ++ cleanSetNum
  | _ => ""

/-- The discount roll of `generateSimulatedPrice`, with the two
`Math.random()` comparison draws and the two uniform draws passed in
explicitly: non-"lego" retailers roll a [10,40] discount with
probability 0.7 and then, independently, overwrite it with a [40,60]
discount with probability 0.1; "lego" always gets 0. -/
def simDiscount (retailer : String) (r1 r2 r3 r4 : ℚ) : ℤ :=
  if retailer ≠ "lego" then
    let d1 := if r1 < 7/10 then jsFloor (r2 * 31) + 10 else 0
    if r3 < 1/10 then jsFloor (r4 * 21) + 40 else d1
  else 0

/-- `generateSimulatedPrice` with its five `Math.random()` draws passed
explicitly (`r1`-`r4` the discount rolls, `r5` the stock roll):
`currentPrice = Math.round(originalPrice * (1 - discount/100) * 100)/100`,
in stock iff availability is "available" and `r5 > 0.15`. -/
def generateSimulatedPrice (set : LegoSet) (retailer : String)
    (r1 r2 r3 r4 r5 : ℚ) : PriceData :=
  { setNumber := set.setNumber
    setName := set.name
    retailer := retailer
    currentPrice :=
      roundToCents (set.price * (1 - (simDiscount retailer r1 r2 r3 r4 : ℚ) / 100))
    originalPrice := set.price
    url := getRetailerUrl retailer set.setNumber
    inStock := (set.availability == "available") && decide (3/20 < r5)
    theme := set.theme
    imageUrl := some set.imageUrl
    pieces := set.pieces }

/-- A concrete catalog record used in witnesses. -/
def sampleSet : LegoSet :=
  { setNumber := "75192-1", name := "Millennium Falcon", price := 850
    imageUrl := "https://img.example/75192.jpg", url := ""
    theme := some "Star Wars", pieces := some 7541, year := some 2017
    availability := "available" }

end BrickDealHunter

namespace BrickDealHunter

/-- A register request with every abuse the validator must catch:
threshold 150, a 51st theme, an invalid watched set number. -/
def fancyRequest : RegisterRequest :=
  { method := "POST", token := "ExponentPushToken[abc123]", platform := "ios"
    preferences := some
      { notificationsEnabled := some true
        minDiscountThreshold := some 150
        watchedThemes := some ["Star Wars", "City"]
        watchedSets := some ["75192-1", "not-a-set", "60380-1"] } }

/-- A register request bearing a malformed token. -/
def badTokenRequest : RegisterRequest :=
  { method := "POST", token := "bad-token", platform := "ios", preferences := none }

/-- Headers carrying an API key that does not match the secret. -/
def wrongKeyHeaders : Headers :=
  { xApiKey := some "wrong-key", authorization := none }

/-- A store holding one registered test token. -/
def registeredTestStore : TokenStore :=
  setStore emptyStore "ExponentPushToken[abc123]"
    (buildTokenData "ExponentPushToken[abc123]" "ios" defaultPreferences)

/-- A POST `sendTestNotification` request with a registered token but a
wrong API key. -/
def mismatchedTestRequest : TestRequest :=
  { method := "POST", headers := wrongKeyHeaders, token := "ExponentPushToken[abc123]" }

/-- A previously stored registration with thoroughly non-default
preferences. -/
def customPrev : PushToken :=
  { token := "ExponentPushToken[abc123]", platform := "android"
    notificationsEnabled := false, minDiscountThreshold := 55
    watchedThemes := ["City"], watchedSets := ["60380-1"] }

end BrickDealHunter

namespace BrickDealHunter

/-- The concrete percent-off at baseline 100, current 95 is 5. -/
lemma percentOffCalc_obs95 : percentOffCalc obs95 = 5 := by
  show jsRound ((100 - 95) / 100 * 100) = 5
  norm_num [jsRound, Int.floor_eq_iff]

/-- The concrete percent-off at baseline 100, current 80 is 20. -/
lemma percentOffCalc_obs80 : percentOffCalc obs80 = 20 := by
  show jsRound ((100 - 80) / 100 * 100) = 20
  norm_num [jsRound, Int.floor_eq_iff]

/-- The concrete savings at baseline 100, current 80 is 20. -/
lemma savings_obs80 :
    roundToCents (obs80.originalPrice - obs80.currentPrice) = 20 := by
  show roundToCents (100 - 80) = 20
  have h : jsRound ((100 - 80 : ℚ) * 100) = 2000 := by
    norm_num [jsRound, Int.floor_eq_iff]
  rw [roundToCents, h]
  norm_num

/-- The deal derived at baseline 100, current 80, in stock. -/
lemma deriveDeal_obs80 :
    deriveDeal obs80 = some { toPriceData := obs80, percentOff := 20, savings := 20 } := by
  rw [deriveDeal, percentOffCalc_obs80, savings_obs80, if_pos ⟨by norm_num, rfl⟩]

/-- No deal is derived at baseline 100, current 95 (percent-off 5). -/
lemma deriveDeal_obs95 : deriveDeal obs95 = none := by
  rw [deriveDeal, percentOffCalc_obs95, if_neg]
  intro h
  exact absurd h.1 (by norm_num)

end BrickDealHunter

namespace BrickDealHunter

/-- C1: for a price observation with positive baseline and current
price, current below baseline, any deal derived by the price-update
pipeline carries `percentOff = round(100 * (original - current) / original)`
and `savings = (original - current)` rounded to cents. -/
theorem deal_fields_match_invariant (p : PriceData) (d : DealData)
    (hb : 0 < p.originalPrice) (hc : 0 < p.currentPrice)
    (hlt : p.currentPrice < p.originalPrice)
    (hd : deriveDeal p = some d) :
    d.percentOff = jsRound (100 * (p.originalPrice - p.currentPrice) / p.originalPrice) ∧
    d.savings = roundToCents (p.originalPrice - p.currentPrice) := by
  rw [deriveDeal] at hd
  by_cases h : 10 ≤ percentOffCalc p ∧ p.inStock = true
  · rw [if_pos h] at hd
    injection hd with hd
    subst hd
    refine ⟨?_, rfl⟩
    show percentOffCalc p = _
    rw [percentOffCalc,
      show (p.originalPrice - p.currentPrice) / p.originalPrice * 100
        = 100 * (p.originalPrice - p.currentPrice) / p.originalPrice from by ring]
  · rw [if_neg h] at hd
    cases hd

/-- Witness for C1 at baseline 100, current 80. -/
theorem deal_fields_match_invariant_witness :
    ∃ d : DealData, deriveDeal obs80 = some d ∧
      d.percentOff = jsRound (100 * (obs80.originalPrice - obs80.currentPrice) / obs80.originalPrice) ∧
      d.savings = roundToCents (obs80.originalPrice - obs80.currentPrice) :=
  ⟨_, deriveDeal_obs80,
    deal_fields_match_invariant obs80 _ (by norm_num [obs80, obs95])
      (by norm_num [obs80, obs95]) (by norm_num [obs80, obs95]) deriveDeal_obs80⟩

/-- C2: deal derivation yields nothing exactly when the computed
percent-off is below 10 or the observation is out of stock; at
baseline 100 / current 95 the percent-off is 5 and no deal arises,
while at baseline 100 / current 80 a deal with percent-off 20 and
savings 20 is produced. -/
theorem deriveDeal_none_iff :
    (∀ p : PriceData, deriveDeal p = none ↔ (percentOffCalc p < 10 ∨ p.inStock = false)) ∧
    (percentOffCalc obs95 = 5 ∧ deriveDeal obs95 = none) ∧
    (∃ d : DealData, deriveDeal obs80 = some d ∧ d.percentOff = 20 ∧ d.savings = 20) := by
  refine ⟨?_, ⟨percentOffCalc_obs95, deriveDeal_obs95⟩, ⟨_, deriveDeal_obs80, rfl, rfl⟩⟩
  intro p
  rw [deriveDeal]
  by_cases h : 10 ≤ percentOffCalc p ∧ p.inStock = true
  · rw [if_pos h]
    constructor
    · intro hfalse; cases hfalse
    · intro habs
      rcases habs with h1 | h2
      · omega
      · rw [h2] at h
        exact absurd h.2 (by simp)
  · rw [if_neg h]
    constructor
    · intro _
      rcases not_and_or.mp h with h1 | h2
      · exact Or.inl (by omega)
      · exact Or.inr (by simpa using h2)
    · intro _; rfl

end BrickDealHunter

namespace BrickDealHunter

/-- C3: among subscribers returned by the enabled/threshold query, one
is selected for a deal (with a present, nonempty theme name, as every
catalog-produced deal has) if and only if its watched-theme list is
empty or contains the deal's theme, OR its watched-set list is empty
or contains the deal's set number; a subscriber with both lists empty
is selected for every deal. -/
theorem subscriber_matching_or_of_ors :
    (∀ (d : DealData) (s : PushToken) (t : String), d.theme = some t → t ≠ "" →
      (matchesPreferences d s = true ↔
        ((s.watchedThemes = [] ∨ t ∈ s.watchedThemes) ∨
         (s.watchedSets = [] ∨ d.setNumber ∈ s.watchedSets)))) ∧
    (∀ (d : DealData) (s : PushToken), s.watchedThemes = [] → s.watchedSets = [] →
      matchesPreferences d s = true) ∧
    (∀ (d : DealData) (regs : List PushToken) (s : PushToken),
      s ∈ regs → s.notificationsEnabled = true →
      s.minDiscountThreshold ≤ (d.percentOff : ℚ) →
      matchesPreferences d s = true → s.token ∈ getEligiblePushTokens d regs) := by
  refine ⟨?_, ?_, ?_⟩
  · intro d s t hth hne
    have htt : themeTruthy (some t) = true := by
      simp [themeTruthy, hne]
    simp only [matchesPreferences, hth, htt, Bool.true_and, Option.getD_some]
    rcases hwt : s.watchedThemes with _ | ⟨a, as⟩ <;>
      rcases hws : s.watchedSets with _ | ⟨b, bs⟩ <;>
        simp [List.elem_iff, htt]
  · intro d s h1 h2
    simp [matchesPreferences, h1, h2]
  · intro d regs s hmem hen hthr hmatch
    simp only [getEligiblePushTokens, List.mem_map]
    refine ⟨s, ?_, rfl⟩
    rw [List.mem_filter, List.mem_filter]
    exact ⟨⟨hmem, by simp [hen, hthr]⟩, hmatch⟩

/-- Witness for C3: the Star-Wars watcher matched against the
Star Wars deal, and the open subscriber against the City deal. -/
theorem subscriber_matching_or_of_ors_witness :
    (matchesPreferences swDeal swSubscriber = true) ∧
    (matchesPreferences cityDeal openSubscriber = true) ∧
    (openSubscriber.token ∈ getEligiblePushTokens cityDeal [openSubscriber]) := by
  refine ⟨?_, ?_, ?_⟩
  · exact (subscriber_matching_or_of_ors.1 swDeal swSubscriber "Star Wars" rfl
      (by decide)).mpr (Or.inl (Or.inr (by decide)))
  · exact subscriber_matching_or_of_ors.2.1 cityDeal openSubscriber rfl rfl
  · exact subscriber_matching_or_of_ors.2.2 cityDeal [openSubscriber] openSubscriber
      (by simp) rfl (by norm_num [openSubscriber, cityDeal])
      (subscriber_matching_or_of_ors.2.1 cityDeal openSubscriber rfl rfl)

end BrickDealHunter

namespace BrickDealHunter

/-- C4 counterexample: a subscriber with `watchedThemes = ["Star Wars"]`
and `watchedSets = []` IS selected for a 50%-off deal with theme
"City" — the empty watched-set list makes the set clause true under
the OR-of-ORs rule — contradicting the claim that it is NOT selected. -/
theorem swSubscriber_selected_for_cityDeal :
    matchesPreferences cityDeal swSubscriber = true ∧
    swSubscriber.token ∈ getEligiblePushTokens cityDeal [swSubscriber] := by
  have h : matchesPreferences cityDeal swSubscriber = true := by
    simp [matchesPreferences, cityDeal, swSubscriber]
  refine ⟨h, ?_⟩
  simp only [getEligiblePushTokens, List.mem_map]
  refine ⟨swSubscriber, ?_, rfl⟩
  rw [List.mem_filter, List.mem_filter]
  refine ⟨⟨by simp, ?_⟩, h⟩
  simp only [swSubscriber, cityDeal, Bool.true_and]
  norm_num

/-- C4 amended: a subscriber with `watchedThemes = ["Star Wars"]` and
`watchedSets = []` passing the enabled/threshold query is selected
for EVERY deal — the empty watched-set list satisfies the set clause
of the OR-of-ORs rule — so in particular both for theme "City" and
for theme "Star Wars" deals regardless of product id. -/
theorem swSubscriber_matches_every_deal :
    (∀ d : DealData, matchesPreferences d swSubscriber = true) ∧
    (∀ (d : DealData) (regs : List PushToken), swSubscriber ∈ regs →
      swSubscriber.minDiscountThreshold ≤ (d.percentOff : ℚ) →
      swSubscriber.token ∈ getEligiblePushTokens d regs) := by
  have hall : ∀ d : DealData, matchesPreferences d swSubscriber = true := by
    intro d
    simp [matchesPreferences, swSubscriber]
  refine ⟨hall, ?_⟩
  intro d regs hmem hthr
  simp only [getEligiblePushTokens, List.mem_map]
  refine ⟨swSubscriber, ?_, rfl⟩
  rw [List.mem_filter, List.mem_filter]
  refine ⟨⟨hmem, ?_⟩, hall d⟩
  simp only [Bool.and_eq_true, decide_eq_true_eq]
  exact ⟨rfl, hthr⟩

/-- Witness for the amended C4 at the concrete City deal. -/
theorem swSubscriber_matches_every_deal_witness :
    matchesPreferences cityDeal swSubscriber = true ∧
    swSubscriber.token ∈ getEligiblePushTokens cityDeal [swSubscriber] :=
  ⟨swSubscriber_matches_every_deal.1 cityDeal,
    swSubscriber_matches_every_deal.2 cityDeal [swSubscriber] (by simp)
      (by norm_num [swSubscriber, cityDeal])⟩

/-- C5: `notifyHotDeal` performs no registry query and no gateway call
for a deal below 40% off, and dispatches at least one gateway batch
for a 40%-off deal with at least one eligible subscriber. -/
theorem notifyHotDeal_guard :
    (∀ (deal : DealData) (regs : List PushToken), deal.percentOff < 40 →
      notifyHotDeal deal regs = []) ∧
    (∀ (deal : DealData) (regs : List PushToken), deal.percentOff = 40 →
      getEligiblePushTokens deal regs ≠ [] →
      ∃ b, FanoutEffect.pushBatch b ∈ notifyHotDeal deal regs) := by
  constructor
  · intro deal regs h
    rw [notifyHotDeal, if_pos h]
  · intro deal regs h40 hne
    rcases hl : getEligiblePushTokens deal regs with _ | ⟨tok, toks⟩
    · exact absurd hl hne
    · refine ⟨((tok :: toks).map (mkPushMessage (hotDealPayload deal))).take 100, ?_⟩
      rw [notifyHotDeal, if_neg (by omega), hl, sendExpoBatches]
      simp [chunk100]

/-- The open subscriber is the single eligible token of `hotDeal40`. -/
lemma eligible_hotDeal40 :
    getEligiblePushTokens hotDeal40 [openSubscriber] = [openSubscriber.token] := by
  have h : matchesPreferences hotDeal40 openSubscriber = true := by
    simp [matchesPreferences, openSubscriber]
  have hq : (openSubscriber.notificationsEnabled &&
      decide (openSubscriber.minDiscountThreshold ≤ (hotDeal40.percentOff : ℚ))) = true := by
    simp only [Bool.and_eq_true, decide_eq_true_eq]
    exact ⟨rfl, by norm_num [openSubscriber, hotDeal40]⟩
  simp [getEligiblePushTokens, List.filter_cons, hq, h]

/-- Witness for C5: the 39%-off deal produces no effects; the 40%-off
deal with the open subscriber registered produces a gateway batch. -/
theorem notifyHotDeal_guard_witness :
    notifyHotDeal mildDeal39 [openSubscriber] = [] ∧
    ∃ b, FanoutEffect.pushBatch b ∈ notifyHotDeal hotDeal40 [openSubscriber] := by
  constructor
  · exact notifyHotDeal_guard.1 mildDeal39 [openSubscriber] (by norm_num [mildDeal39, hotDeal40])
  · exact notifyHotDeal_guard.2 hotDeal40 [openSubscriber] rfl
      (by rw [eligible_hotDeal40]; exact List.cons_ne_nil _ _)

end BrickDealHunter

namespace BrickDealHunter

set_option maxRecDepth 10000 in
/-- C8 counterexample: `checkRateLimit` is a fixed-reset window, not a
sliding one.  One request at t=0 opens a window resetting at t=60000;
29 more at t=59000 fill it; 30 further requests at t=60001 land in a
fresh window.  All 59 requests at t=59000 and t=60001 are admitted,
yet they fall inside the single 60-second window [59000, 119000). -/
theorem rateLimit_sliding_window_violated :
    countAdmittedIn 59000 119000 (runRateLimit burstTrace emptyRateMap) = 59 ∧
    30 < countAdmittedIn 59000 119000 (runRateLimit burstTrace emptyRateMap) := by
  decide

/-- Dropping a rejected request from an admit count. -/
lemma countAdmitted_cons_false (t : ℤ) (l : List (ℤ × Bool)) :
    countAdmitted ((t, false) :: l) = countAdmitted l := by
  simp [countAdmitted, List.filter_cons]

/-- Counting an admitted request. -/
lemma countAdmitted_cons_true (t : ℤ) (l : List (ℤ × Bool)) :
    countAdmitted ((t, true) :: l) = countAdmitted l + 1 := by
  simp [countAdmitted, List.filter_cons]

/-- Inside a live fixed window (every request time at most the record's
`resetTime`), a record at count `c` admits exactly `min n (30 - c)` of
the next `n` requests from that IP. -/
lemma runRateLimit_live_window (ip : String) (rt : ℤ) :
    ∀ (ts : List ℤ) (c : ℕ) (m : RateMap), (∀ t ∈ ts, t ≤ rt) →
      1 ≤ c → c ≤ rateLimitMaxRequests → m ip = some ⟨c, rt⟩ →
      countAdmitted (runRateLimit (ts.map (fun t => (ip, t))) m)
        = min ts.length (rateLimitMaxRequests - c) := by
  intro ts
  induction ts with
  | nil =>
    intro c m _ _ _ _
    simp [runRateLimit, countAdmitted]
  | cons t ts ih =>
    intro c m hts hc1 hc30 hm
    have hts' : ∀ u ∈ ts, u ≤ rt := fun u hu => hts u (List.mem_cons_of_mem _ hu)
    have hle : t ≤ rt := hts t (List.mem_cons_self _ _)
    simp only [List.map_cons, runRateLimit, checkRateLimit, hm]
    rw [if_neg (not_lt.mpr hle)]
    by_cases h30 : rateLimitMaxRequests ≤ c
    · rw [if_pos h30]
      simp only [countAdmitted_cons_false]
      rw [ih c m hts' hc1 hc30 hm]
      simp only [List.length_cons]
      omega
    · rw [if_neg h30]
      have hm' : (setRate m ip ⟨c + 1, rt⟩) ip = some ⟨c + 1, rt⟩ := by
        simp [setRate]
      simp only [countAdmitted_cons_true]
      rw [ih (c + 1) _ hts' (by omega) (by omega) hm']
      simp only [List.length_cons]
      have h : rateLimitMaxRequests = 30 := rfl
      omega

/-- C8 amended: the limiter caps each FIXED 60-second window — opened
by a client's first request (or first request after expiry) — at 30
admitted requests: of the opening request plus `n` further requests
inside that window, exactly `min (n+1) 30` are admitted, so the 31st
and later ones are rejected, and a rejected request is answered 429
by the endpoint before any work.  Across a SLIDING 60-second window
up to 59 requests can be admitted (see the counterexample), so the
claim's "any 60-second window" reading fails. -/
theorem rateLimit_fixed_window_cap (ip : String) (t0 : ℤ) (ts : List ℤ)
    (hts : ∀ t ∈ ts, t ≤ t0 + rateLimitWindowMs) :
    (countAdmitted (runRateLimit ((ip, t0) :: ts.map (fun t => (ip, t))) emptyRateMap)
      = min (ts.length + 1) rateLimitMaxRequests) ∧
    (∀ (now : ℤ) (req : RegisterRequest) (rl : RateMap) (store : TokenStore),
      req.method = "POST" → (checkRateLimit ip now rl).1 = false →
      registerPushToken now ip req rl store = (429, (checkRateLimit ip now rl).2, store)) := by
  constructor
  · have h1 : checkRateLimit ip t0 emptyRateMap
        = (true, setRate emptyRateMap ip ⟨1, t0 + rateLimitWindowMs⟩) := rfl
    simp only [runRateLimit, h1]
    have hm1 : (setRate emptyRateMap ip ⟨1, t0 + rateLimitWindowMs⟩) ip
        = some ⟨1, t0 + rateLimitWindowMs⟩ := by simp [setRate]
    have hrec := runRateLimit_live_window ip (t0 + rateLimitWindowMs) ts 1 _ hts
      (by norm_num) (by norm_num [rateLimitMaxRequests]) hm1
    simp only [countAdmitted] at hrec ⊢
    rw [show ((t0, true) :: runRateLimit (ts.map fun t => (ip, t))
            (setRate emptyRateMap ip ⟨1, t0 + rateLimitWindowMs⟩)).filter (fun p => p.2)
        = (t0, true) :: (runRateLimit (ts.map fun t => (ip, t))
            (setRate emptyRateMap ip ⟨1, t0 + rateLimitWindowMs⟩)).filter (fun p => p.2)
      from by simp [List.filter_cons]]
    rw [List.length_cons, hrec]
    have : rateLimitMaxRequests = 30 := rfl
    omega
  · intro now req rl store hm hrej
    rw [registerPushToken, if_neg (by rw [hm]; decide), if_neg (by rw [hm]; decide)]
    simp only [hrej, Bool.not_false, if_pos]

/-- Witness for the amended C8: a burst of 1+40 requests inside one
fixed window admits exactly 30; a full window rejects with 429. -/
theorem rateLimit_fixed_window_cap_witness :
    (countAdmitted (runRateLimit (("1.2.3.4", 0)
        :: (List.replicate 40 (1000 : ℤ)).map (fun t => ("1.2.3.4", t)))
        emptyRateMap) = 30) ∧
    (registerPushToken 10 "1.2.3.4"
        ⟨"POST", "ExponentPushToken[abc123]", "ios", none⟩
        (setRate emptyRateMap "1.2.3.4" ⟨30, 60000⟩) emptyStore
      = (429, (checkRateLimit "1.2.3.4" 10 (setRate emptyRateMap "1.2.3.4" ⟨30, 60000⟩)).2,
          emptyStore)) := by
  constructor
  · have h := (rateLimit_fixed_window_cap "1.2.3.4" 0 (List.replicate 40 (1000 : ℤ))
      (by
        intro t ht
        rw [List.eq_of_mem_replicate ht, rateLimitWindowMs]
        norm_num)).1
    simpa [rateLimitMaxRequests] using h
  · exact (rateLimit_fixed_window_cap "1.2.3.4" 0 []
      (by intro t ht; cases ht)).2 10
      ⟨"POST", "ExponentPushToken[abc123]", "ios", none⟩
      (setRate emptyRateMap "1.2.3.4" ⟨30, 60000⟩) emptyStore rfl (by decide)

end BrickDealHunter

namespace BrickDealHunter

/-- C6: on a rate-admitted POST, `registerPushToken` answers 400 and
stores nothing for a syntactically invalid token, and for a valid
token stores a record whose threshold is clamped into [0,100], whose
theme list has at most 50 entries, and whose set list keeps only
entries passing the set-number validator, at most 100 of them; a
requested threshold of 150 reads back as 100; `"bad-token"` is
invalid while `ExponentPushToken[abc123]` is valid. -/
theorem register_validation (now : ℤ) (ip : String) (req : RegisterRequest)
    (rl : RateMap) (store : TokenStore)
    (hm : req.method = "POST")
    (hr : (checkRateLimit ip now rl).1 = true) :
    (isValidExpoPushToken req.token = false →
      registerPushToken now ip req rl store = (400, (checkRateLimit ip now rl).2, store)) ∧
    (isValidExpoPushToken req.token = true →
      ∃ tk, (registerPushToken now ip req rl store).1 = 200 ∧
        (registerPushToken now ip req rl store).2.2 req.token = some tk ∧
        0 ≤ tk.minDiscountThreshold ∧ tk.minDiscountThreshold ≤ 100 ∧
        tk.watchedThemes.length ≤ 50 ∧ tk.watchedSets.length ≤ 100 ∧
        (∀ s ∈ tk.watchedSets, isValidSetNumber s = true) ∧
        ((prefOf req).minDiscountThreshold = some 150 → tk.minDiscountThreshold = 100)) ∧
    isValidExpoPushToken "bad-token" = false ∧
    isValidExpoPushToken "ExponentPushToken[abc123]" = true := by
  refine ⟨?_, ?_, by decide, by decide⟩
  · intro hv
    rw [registerPushToken, if_neg (by rw [hm]; decide), if_neg (by rw [hm]; decide)]
    simp only [hr, Bool.not_true, Bool.false_eq_true, if_false, hv, Bool.not_false, if_true]
  · intro hv
    refine ⟨buildTokenData req.token req.platform (prefOf req), ?_, ?_, ?_, ?_, ?_, ?_, ?_, ?_⟩
    · rw [registerPushToken, if_neg (by rw [hm]; decide), if_neg (by rw [hm]; decide)]
      simp only [hr, Bool.not_true, Bool.false_eq_true, if_false, hv, Bool.not_true]
    · rw [registerPushToken, if_neg (by rw [hm]; decide), if_neg (by rw [hm]; decide)]
      simp only [hr, Bool.not_true, Bool.false_eq_true, if_false, hv, Bool.not_true,
        setStore, if_pos]
    · rcases hx : (prefOf req).minDiscountThreshold with _ | x
      · simp [buildTokenData, hx]
      · simp only [buildTokenData, hx]
        exact le_min (le_max_right x 0) (by norm_num)
    · rcases hx : (prefOf req).minDiscountThreshold with _ | x
      · simp only [buildTokenData, hx]
        norm_num
      · simp only [buildTokenData, hx]
        exact min_le_right _ _
    · simp only [buildTokenData, List.length_take]
      exact min_le_left _ _
    · simp only [buildTokenData, List.length_take]
      exact min_le_left _ _
    · intro s hs
      simp only [buildTokenData] at hs
      exact (List.mem_filter.mp (List.take_subset _ _ hs)).2
    · intro h150
      simp only [buildTokenData, h150]
      norm_num

/-- Witness for C6 at the concrete requests. -/
theorem register_validation_witness :
    (registerPushToken 0 "1.2.3.4" badTokenRequest emptyRateMap emptyStore
      = (400, (checkRateLimit "1.2.3.4" 0 emptyRateMap).2, emptyStore)) ∧
    (∃ tk, (registerPushToken 0 "1.2.3.4" fancyRequest emptyRateMap emptyStore).1 = 200 ∧
      (registerPushToken 0 "1.2.3.4" fancyRequest emptyRateMap emptyStore).2.2
        fancyRequest.token = some tk ∧
      0 ≤ tk.minDiscountThreshold ∧ tk.minDiscountThreshold ≤ 100 ∧
      tk.watchedThemes.length ≤ 50 ∧ tk.watchedSets.length ≤ 100 ∧
      (∀ s ∈ tk.watchedSets, isValidSetNumber s = true) ∧
      ((prefOf fancyRequest).minDiscountThreshold = some 150 →
        tk.minDiscountThreshold = 100)) :=
  ⟨(register_validation 0 "1.2.3.4" badTokenRequest emptyRateMap emptyStore rfl rfl).1
      (by decide),
    (register_validation 0 "1.2.3.4" fancyRequest emptyRateMap emptyStore rfl rfl).2.1
      (by decide)⟩

end BrickDealHunter

namespace BrickDealHunter

/-- C7: the `sendTestNotification` handler never consults
`validateApiKey`.  With a configured secret and a non-matching
`X-API-Key` header — which `validateApiKey` itself rejects — the
request still succeeds with 200 instead of the claimed 401.  Only the
unconfigured-secret half of the claim holds: `validateApiKey` with an
empty secret admits every request. -/
theorem sendTestNotification_no_apiKey_gate :
    validateApiKey "s3cret" wrongKeyHeaders = false ∧
    (sendTestNotification 0 "1.2.3.4" mismatchedTestRequest emptyRateMap
      registeredTestStore).1 = 200 ∧
    (∀ h : Headers, validateApiKey "" h = true) := by
  refine ⟨by decide, by decide, ?_⟩
  intro h
  rw [validateApiKey, if_pos rfl]

/-- C10: re-registering an existing token with the `preferences` object
absent (or with all its fields absent) overwrites the stored record
with the defaults — enabled, threshold 20, empty watch lists —
regardless of what was stored before, because `tokenData` assigns
every field and the merge-mode `set` therefore replaces them all. -/
theorem register_reset_to_defaults (now : ℤ) (ip : String) (rl : RateMap)
    (store : TokenStore) (token platform : String) (prev : PushToken)
    (hr : (checkRateLimit ip now rl).1 = true)
    (hv : isValidExpoPushToken token = true)
    (hprev : store token = some prev)
    (prefs : Option Preferences)
    (hp : prefs = none ∨ prefs = some defaultPreferences) :
    ∃ tk, (registerPushToken now ip ⟨"POST", token, platform, prefs⟩ rl store).2.2 token
        = some tk ∧
      tk.notificationsEnabled = true ∧ tk.minDiscountThreshold = 20 ∧
      tk.watchedThemes = [] ∧ tk.watchedSets = [] := by
  have hpref : prefOf ⟨"POST", token, platform, prefs⟩ = defaultPreferences := by
    rcases hp with h | h <;> rw [h] <;> rfl
  have hmeth : (⟨"POST", token, platform, prefs⟩ : RegisterRequest).method = "POST" := rfl
  refine ⟨buildTokenData token platform defaultPreferences, ?_, rfl, rfl, rfl, rfl⟩
  rw [registerPushToken, if_neg (by rw [hmeth]; decide), if_neg (by rw [hmeth]; decide)]
  simp only [hr, Bool.not_true, Bool.false_eq_true, if_false, hv, hpref,
    setStore, if_pos]

/-- Witness for C10: the custom registration is reset to defaults. -/
theorem register_reset_to_defaults_witness :
    ∃ tk, (registerPushToken 0 "1.2.3.4"
        ⟨"POST", "ExponentPushToken[abc123]", "ios", none⟩ emptyRateMap
        (setStore emptyStore "ExponentPushToken[abc123]" customPrev)).2.2
        "ExponentPushToken[abc123]" = some tk ∧
      tk.notificationsEnabled = true ∧ tk.minDiscountThreshold = 20 ∧
      tk.watchedThemes = [] ∧ tk.watchedSets = [] :=
  register_reset_to_defaults 0 "1.2.3.4" emptyRateMap
    (setStore emptyStore "ExponentPushToken[abc123]" customPrev)
    "ExponentPushToken[abc123]" "ios" customPrev rfl (by decide)
    (by simp [setStore]) none (Or.inl rfl)

/-- C9: for every outcome of the five random draws (each in [0,1)),
the simulated discount is 0 for the "lego" retailer; for any other
retailer it lies in {0} ∪ [10,40] ∪ [40,60]; when the deeper roll
triggers (r3 < 0.1) it overwrites the first roll, leaving a [40,60]
discount; and the current price is the baseline times
(1 - discount/100), rounded to cents. -/
theorem generateSimulatedPrice_model (set : LegoSet) (retailer : String)
    (r1 r2 r3 r4 r5 : ℚ)
    (h1a : 0 ≤ r1) (h1b : r1 < 1) (h2a : 0 ≤ r2) (h2b : r2 < 1)
    (h3a : 0 ≤ r3) (h3b : r3 < 1) (h4a : 0 ≤ r4) (h4b : r4 < 1) :
    (retailer = "lego" → simDiscount retailer r1 r2 r3 r4 = 0) ∧
    (simDiscount retailer r1 r2 r3 r4 = 0 ∨
      (10 ≤ simDiscount retailer r1 r2 r3 r4 ∧ simDiscount retailer r1 r2 r3 r4 ≤ 40) ∨
      (40 ≤ simDiscount retailer r1 r2 r3 r4 ∧ simDiscount retailer r1 r2 r3 r4 ≤ 60)) ∧
    (retailer ≠ "lego" → r3 < 1/10 →
      40 ≤ simDiscount retailer r1 r2 r3 r4 ∧ simDiscount retailer r1 r2 r3 r4 ≤ 60) ∧
    (generateSimulatedPrice set retailer r1 r2 r3 r4 r5).currentPrice
      = roundToCents (set.price * (1 - (simDiscount retailer r1 r2 r3 r4 : ℚ) / 100)) := by
  have hf2a : (0 : ℤ) ≤ jsFloor (r2 * 31) := by
    rw [jsFloor]; exact Int.floor_nonneg.mpr (by positivity)
  have hf2b : jsFloor (r2 * 31) ≤ 30 := by
    rw [jsFloor]
    have h31 : r2 * 31 < ((31 : ℤ) : ℚ) := by push_cast; nlinarith
    have := Int.floor_lt.mpr h31
    omega
  have hf4a : (0 : ℤ) ≤ jsFloor (r4 * 21) := by
    rw [jsFloor]; exact Int.floor_nonneg.mpr (by positivity)
  have hf4b : jsFloor (r4 * 21) ≤ 20 := by
    rw [jsFloor]
    have h21 : r4 * 21 < ((21 : ℤ) : ℚ) := by push_cast; nlinarith
    have := Int.floor_lt.mpr h21
    omega
  refine ⟨?_, ?_, ?_, rfl⟩
  · intro h
    simp [simDiscount, h]
  · simp only [simDiscount]
    split_ifs <;> omega
  · intro hret h3
    simp only [simDiscount]
    rw [if_pos hret, if_pos h3]
    omega

/-- Witness for C9 at the sample set, retailer "amazon", draws
r1=r2=r3=r4=0 (both discount rolls trigger, the deeper overwrite
leaving 40), r5=1/2. -/
theorem generateSimulatedPrice_model_witness :
    ("amazon" = "lego" → simDiscount "amazon" 0 0 0 0 = 0) ∧
    (simDiscount "amazon" 0 0 0 0 = 0 ∨
      (10 ≤ simDiscount "amazon" 0 0 0 0 ∧ simDiscount "amazon" 0 0 0 0 ≤ 40) ∨
      (40 ≤ simDiscount "amazon" 0 0 0 0 ∧ simDiscount "amazon" 0 0 0 0 ≤ 60)) ∧
    ("amazon" ≠ "lego" → (0 : ℚ) < 1/10 →
      40 ≤ simDiscount "amazon" 0 0 0 0 ∧ simDiscount "amazon" 0 0 0 0 ≤ 60) ∧
    (generateSimulatedPrice sampleSet "amazon" 0 0 0 0 (1/2)).currentPrice
      = roundToCents (sampleSet.price * (1 - (simDiscount "amazon" 0 0 0 0 : ℚ) / 100)) :=
  generateSimulatedPrice_model sampleSet "amazon" 0 0 0 0 (1/2)
    (le_refl 0) (by norm_num) (le_refl 0) (by norm_num)
    (le_refl 0) (by norm_num) (le_refl 0) (by norm_num)

end BrickDealHunter
